import Mathlib

/-!
Shallow embedding of the claudeforge offline-sync / reconciliation core.

Server side (src/server/src/forgeserver): models.py (pydantic wire models and
validation), db.py (sqlite store: sync_usage, aggregate queries, delete and
reactivate machine).

Client side (src/client/src/forgeclient): local_cache.py (pending queue,
snapshots, compute_daily_deltas), sync.py (maybe_auto_sync, do_sync), config.py.

Machine integers are modelled as Int (sqlite integers are signed 64-bit but no
arithmetic here approaches overflow and python ints are unbounded); timestamps
are seconds since an arbitrary epoch; calendar dates are day numbers since an
arbitrary epoch (the YYYY-MM-DD strings order and compare exactly like their
day numbers).
-/

/-! ## Wire models (models.py) -/

/-- PROTOCOL_VERSION in models.py line 5. -/
def PROTOCOL_VERSION : Int := 1

/-- MAX_SYNC_DAYS in models.py line 6. -/
def MAX_SYNC_DAYS : Int := 365

/-- DailyActivityRecord (models.py lines 11-26): per-day activity counts. -/
structure DailyActivityRecord where
  date : Int
  message_count : Int
  session_count : Int
  tool_call_count : Int
deriving DecidableEq, Repr

/-- DailyUsageRecord (models.py lines 29-45): per-day token usage. -/
structure DailyUsageRecord where
  date : Int
  input_tokens : Int
  output_tokens : Int
  cache_read_tokens : Int
  cache_creation_tokens : Int
deriving DecidableEq, Repr

/-- ModelUsageRecord (models.py lines 48-54): cumulative per-model usage. -/
structure ModelUsageRecord where
  model : String
  input_tokens : Int
  output_tokens : Int
  cache_read_tokens : Int
  cache_creation_tokens : Int
deriving DecidableEq, Repr

/-- SyncRequest (models.py lines 57-62). It declares exactly five fields:
protocol_version, hostname, daily_activity, daily_usage, model_usage. -/
structure SyncRequest where
  protocol_version : Int
  hostname : String
  daily_activity : List DailyActivityRecord
  daily_usage : List DailyUsageRecord
  model_usage : List ModelUsageRecord
deriving DecidableEq, Repr

/-- The field names declared on the pydantic SyncRequest model
(models.py lines 57-62). Pydantic raises AttributeError for any attribute
access outside this list (plus the pydantic internals). -/
def syncRequestFields : List String :=
  ["protocol_version", "hostname", "daily_activity", "daily_usage", "model_usage"]

/-- A python exception relevant to the embedded code paths. -/
inductive PyErr where
  | attributeError
deriving DecidableEq, Repr

/-! ### Date validation (models.py validate_date_format, lines 18-26 and 37-45)

datetime.now() is modelled as a calendar day number plus the number of seconds
elapsed since midnight of that day (0 <= tod < 86400); strptime of a wire date
yields midnight of its day number. -/

/-- Receipt-time clock: calendar day number and seconds since midnight. -/
structure PyNow where
  day : Int
  tod : Int
deriving DecidableEq, Repr

/-- timedelta.days in python: the floor of the total seconds divided by 86400. -/
def timedeltaDays (seconds : Int) : Int := Int.fdiv seconds 86400

/-- validate_date_format: rejects when (datetime.now() - parsed).days exceeds
MAX_SYNC_DAYS, or when the parsed date is after today. Returns true when the
date passes. -/
def validDate (now : PyNow) (d : Int) : Bool :=
  !(decide (timedeltaDays ((now.day - d) * 86400 + now.tod) > MAX_SYNC_DAYS)) &&
  !(decide (d > now.day))

/-- Pydantic validation of a whole SyncRequest: field constraints from
models.py lines 11-62 (ge=0 bounds, hostname 1..255, list caps, min_length 1
on model, the date validator on every daily record). Any failing record makes
the whole request invalid. -/
def validateSyncRequest (now : PyNow) (req : SyncRequest) : Bool :=
  decide (1 ≤ req.protocol_version) && decide (req.protocol_version ≤ PROTOCOL_VERSION) &&
  decide (1 ≤ req.hostname.length) && decide (req.hostname.length ≤ 255) &&
  decide ((req.daily_activity.length : Int) ≤ MAX_SYNC_DAYS) &&
  decide ((req.daily_usage.length : Int) ≤ MAX_SYNC_DAYS) &&
  req.daily_activity.all (fun r =>
    validDate now r.date && decide (0 ≤ r.message_count) &&
    decide (0 ≤ r.session_count) && decide (0 ≤ r.tool_call_count)) &&
  req.daily_usage.all (fun r =>
    validDate now r.date && decide (0 ≤ r.input_tokens) &&
    decide (0 ≤ r.output_tokens) && decide (0 ≤ r.cache_read_tokens) &&
    decide (0 ≤ r.cache_creation_tokens)) &&
  req.model_usage.all (fun r =>
    decide (1 ≤ r.model.length) && decide (0 ≤ r.input_tokens) &&
    decide (0 ≤ r.output_tokens) && decide (0 ≤ r.cache_read_tokens) &&
    decide (0 ≤ r.cache_creation_tokens))

/-! ## Store state (db.py schema, lines 13-92) -/

/-- A row of the machines table. -/
structure MachineRow where
  hostname : String
  first_seen : Int
  last_sync : Int
  is_active : Bool
deriving DecidableEq, Repr

/-- A row of the daily_activity table (UNIQUE(hostname, date)). -/
structure DailyActivityRow where
  hostname : String
  date : Int
  message_count : Int
  session_count : Int
  tool_call_count : Int
  updated_at : Int
deriving DecidableEq, Repr

/-- A row of the daily_usage table (UNIQUE(hostname, date)). -/
structure DailyUsageRow where
  hostname : String
  date : Int
  input_tokens : Int
  output_tokens : Int
  cache_read_tokens : Int
  cache_creation_tokens : Int
  updated_at : Int
deriving DecidableEq, Repr

/-- A row of the model_usage table (UNIQUE(hostname, model)). -/
structure ModelUsageRow where
  hostname : String
  model : String
  input_tokens : Int
  output_tokens : Int
  cache_read_tokens : Int
  cache_creation_tokens : Int
  updated_at : Int
deriving DecidableEq, Repr

/-- A row of the raw_usage table (UNIQUE(hostname, timestamp, model)). -/
structure RawUsageRow where
  hostname : String
  timestamp : Int
  model : String
  input_tokens : Int
  output_tokens : Int
  cache_read_tokens : Int
  cache_creation_tokens : Int
deriving DecidableEq, Repr

/-- A raw-usage wire record, shaped after the raw_usage table columns
(db.py lines 72-83). models.py declares no wire model for it; the list of
these records is what request.raw_usage would have to produce. -/
structure RawUsageRecord where
  timestamp : Int
  model : String
  input_tokens : Int
  output_tokens : Int
  cache_read_tokens : Int
  cache_creation_tokens : Int
deriving DecidableEq, Repr

/-- The whole store: the four data tables plus machines. -/
structure DB where
  machines : List MachineRow
  daily_activity : List DailyActivityRow
  daily_usage : List DailyUsageRow
  model_usage : List ModelUsageRow
  raw_usage : List RawUsageRow
deriving DecidableEq, Repr

/-- The empty store. -/
def emptyDB : DB := ⟨[], [], [], [], []⟩

/-! ## sync_usage (db.py lines 121-215)

Each sqlite upsert keeps the position of an updated row (UPDATE in place) and
appends a fresh INSERT at the end; a conflict is a row with the same natural
key. tick is the value of datetime(now) at the call. -/

/-- Machine upsert (db.py lines 138-144): INSERT hostname, ON CONFLICT update
last_sync and force is_active. -/
def upsertMachine (tick : Int) (hn : String) (ms : List MachineRow) : List MachineRow :=
  if ms.any (fun m => m.hostname == hn) then
    ms.map (fun m =>
      if m.hostname == hn then { m with last_sync := tick, is_active := true } else m)
  else
    ms ++ [⟨hn, tick, tick, true⟩]

/-- daily_activity upsert keyed on (hostname, date) (db.py lines 147-159):
on conflict replace every counter and updated_at. -/
def upsertDailyActivity (tick : Int) (hn : String) (r : DailyActivityRecord)
    (rows : List DailyActivityRow) : List DailyActivityRow :=
  if rows.any (fun x => x.hostname == hn && x.date == r.date) then
    rows.map (fun x =>
      if x.hostname == hn && x.date == r.date then
        { x with message_count := r.message_count, session_count := r.session_count,
                 tool_call_count := r.tool_call_count, updated_at := tick }
      else x)
  else
    rows ++ [⟨hn, r.date, r.message_count, r.session_count, r.tool_call_count, tick⟩]

/-- daily_usage upsert keyed on (hostname, date) (db.py lines 162-177). -/
def upsertDailyUsage (tick : Int) (hn : String) (r : DailyUsageRecord)
    (rows : List DailyUsageRow) : List DailyUsageRow :=
  if rows.any (fun x => x.hostname == hn && x.date == r.date) then
    rows.map (fun x =>
      if x.hostname == hn && x.date == r.date then
        { x with input_tokens := r.input_tokens, output_tokens := r.output_tokens,
                 cache_read_tokens := r.cache_read_tokens,
                 cache_creation_tokens := r.cache_creation_tokens, updated_at := tick }
      else x)
  else
    rows ++ [⟨hn, r.date, r.input_tokens, r.output_tokens, r.cache_read_tokens,
              r.cache_creation_tokens, tick⟩]

/-- model_usage upsert keyed on (hostname, model) (db.py lines 180-195). -/
def upsertModelUsage (tick : Int) (hn : String) (r : ModelUsageRecord)
    (rows : List ModelUsageRow) : List ModelUsageRow :=
  if rows.any (fun x => x.hostname == hn && x.model == r.model) then
    rows.map (fun x =>
      if x.hostname == hn && x.model == r.model then
        { x with input_tokens := r.input_tokens, output_tokens := r.output_tokens,
                 cache_read_tokens := r.cache_read_tokens,
                 cache_creation_tokens := r.cache_creation_tokens, updated_at := tick }
      else x)
  else
    rows ++ [⟨hn, r.model, r.input_tokens, r.output_tokens, r.cache_read_tokens,
              r.cache_creation_tokens, tick⟩]

/-- raw_usage upsert keyed on (hostname, timestamp, model) (db.py lines 197-211). -/
def upsertRawUsage (hn : String) (r : RawUsageRecord)
    (rows : List RawUsageRow) : List RawUsageRow :=
  if rows.any (fun x => x.hostname == hn && x.timestamp == r.timestamp && x.model == r.model) then
    rows.map (fun x =>
      if x.hostname == hn && x.timestamp == r.timestamp && x.model == r.model then
        { x with input_tokens := r.input_tokens, output_tokens := r.output_tokens,
                 cache_read_tokens := r.cache_read_tokens,
                 cache_creation_tokens := r.cache_creation_tokens }
      else x)
  else
    rows ++ [⟨hn, r.timestamp, r.model, r.input_tokens, r.output_tokens,
              r.cache_read_tokens, r.cache_creation_tokens⟩]

/-- The machine upsert plus the daily_activity, daily_usage and model_usage
loops of sync_usage (db.py lines 138-195), returning the updated store and the
running count of upserted records. -/
def applyRequestRows (tick : Int) (db : DB) (req : SyncRequest) : DB × Nat :=
  let db1 := { db with machines := upsertMachine tick req.hostname db.machines }
  let s1 := req.daily_activity.foldl
    (fun s r => ({ s.1 with daily_activity := upsertDailyActivity tick req.hostname r s.1.daily_activity },
                 s.2 + 1)) (db1, 0)
  let s2 := req.daily_usage.foldl
    (fun s r => ({ s.1 with daily_usage := upsertDailyUsage tick req.hostname r s.1.daily_usage },
                 s.2 + 1)) s1
  req.model_usage.foldl
    (fun s r => ({ s.1 with model_usage := upsertModelUsage tick req.hostname r s.1.model_usage },
                 s.2 + 1)) s2

/-- The attribute access request.raw_usage performed by sync_usage
(db.py line 197). The pydantic SyncRequest model (models.py lines 57-62)
declares no raw_usage field, so pydantic raises AttributeError; the ok branch
describes the value the loop would receive if the model declared the field. -/
def getRawUsage (_req : SyncRequest) : Except PyErr (List RawUsageRecord) :=
  if syncRequestFields.contains "raw_usage" then Except.ok []
  else Except.error PyErr.attributeError

/-- The body of sync_usage run inside the get_db transaction
(db.py lines 129-213): the registered check, the machine upsert, the three
record loops, then the raw_usage loop whose attribute access raises. -/
def sync_usage_tx (tick : Int) (db : DB) (req : SyncRequest) :
    Except PyErr (DB × Nat × Bool) :=
  let registered := !(db.machines.any (fun m => m.hostname == req.hostname))
  let s3 := applyRequestRows tick db req
  match getRawUsage req with
  | Except.error e => Except.error e
  | Except.ok raws =>
    let s4 := raws.foldl
      (fun s r => ({ s.1 with raw_usage := upsertRawUsage req.hostname r s.1.raw_usage },
                   s.2 + 1)) s3
    Except.ok (s4.1, s4.2, registered)

/-- sync_usage (db.py lines 121-215) with the get_db transaction semantics
(db.py lines 105-118): commit the final state on success, roll back to the
prior state when anything inside the with-block raises. -/
def sync_usage (tick : Int) (db : DB) (req : SyncRequest) :
    DB × Except PyErr (Nat × Bool) :=
  match sync_usage_tx tick db req with
  | Except.ok (db2, n, b) => (db2, Except.ok (n, b))
  | Except.error e => (db, Except.error e)

/-- Outcome of the HTTP sync endpoint as the client observes it. -/
inductive ServerReply where
  | ok (records_upserted : Nat) (machine_registered : Bool)
  | validationFailed
  | internalError (e : PyErr)
deriving DecidableEq, Repr

/-- The POST /v1/sync endpoint (routers/sync.py lines 11-24): fastapi parses
and validates the body into a SyncRequest before the handler runs; a failing
validator rejects the whole request with 422 and the store is never touched;
an exception out of sync_usage becomes a 500 after the rollback. -/
def sync_endpoint (now : PyNow) (db : DB) (req : SyncRequest) : DB × ServerReply :=
  if validateSyncRequest now req then
    match sync_usage (now.day * 86400 + now.tod) db req with
    | (db2, Except.ok (n, b)) => (db2, ServerReply.ok n b)
    | (db2, Except.error e) => (db2, ServerReply.internalError e)
  else
    (db, ServerReply.validationFailed)

/-! ## Aggregate queries (db.py lines 218-345)

Every aggregate joins its data table against machines on hostname with
is_active = 1, which is how soft-deleted machines drop out. -/

/-- The join condition m ON rows.hostname = m.hostname AND m.is_active = 1:
true when some active machine row carries this hostname. -/
def machineActiveFor (ms : List MachineRow) (hn : String) : Bool :=
  ms.any (fun m => m.hostname == hn && m.is_active)

/-- daily_usage rows surviving the active-machine join. -/
def activeUsageRows (db : DB) : List DailyUsageRow :=
  db.daily_usage.filter (fun r => machineActiveFor db.machines r.hostname)

/-- daily_activity rows surviving the active-machine join. -/
def activeActivityRows (db : DB) : List DailyActivityRow :=
  db.daily_activity.filter (fun r => machineActiveFor db.machines r.hostname)

/-- model_usage rows surviving the active-machine join. -/
def activeModelRows (db : DB) : List ModelUsageRow :=
  db.model_usage.filter (fun r => machineActiveFor db.machines r.hostname)

/-- Response record of get_daily_stats (models.py lines 79-90). -/
structure DailyStatsRecord where
  date : Int
  total_tokens : Int
  input_tokens : Int
  output_tokens : Int
  cache_read_tokens : Int
  cache_creation_tokens : Int
  message_count : Int
  session_count : Int
  tool_call_count : Int
  machines : List String
deriving DecidableEq, Repr

/-- GROUP BY date with ORDER BY date ASC over joined rows, summing each token
column, collecting GROUP_CONCAT(DISTINCT hostname), and merging the activity
sums for the same date (absent date defaults to zero) — the pure part of
get_daily_stats (db.py lines 222-268). -/
def dailyStatsOfRows (urows : List DailyUsageRow) (arows : List DailyActivityRow) :
    List DailyStatsRecord :=
  let dates := ((urows.map (fun r => r.date)).dedup).insertionSort (fun a b => a ≤ b)
  dates.map (fun d =>
    let us := urows.filter (fun r => r.date == d)
    let acts := arows.filter (fun r => r.date == d)
    let i := (us.map (fun r => r.input_tokens)).sum
    let o := (us.map (fun r => r.output_tokens)).sum
    let cr := (us.map (fun r => r.cache_read_tokens)).sum
    let cc := (us.map (fun r => r.cache_creation_tokens)).sum
    { date := d
      total_tokens := i + o + cr + cc
      input_tokens := i
      output_tokens := o
      cache_read_tokens := cr
      cache_creation_tokens := cc
      message_count := (acts.map (fun r => r.message_count)).sum
      session_count := (acts.map (fun r => r.session_count)).sum
      tool_call_count := (acts.map (fun r => r.tool_call_count)).sum
      machines := (us.map (fun r => r.hostname)).dedup })

/-- get_daily_stats (db.py lines 218-268): active-machine join, the
date >= date(now, -days) window, then the per-date aggregation. nowDay is the
day number of date(now). -/
def get_daily_stats (nowDay : Int) (days : Int) (db : DB) : List DailyStatsRecord :=
  dailyStatsOfRows
    ((activeUsageRows db).filter (fun r => nowDay - days ≤ r.date))
    ((activeActivityRows db).filter (fun r => nowDay - days ≤ r.date))

/-- One entry of get_model_stats. -/
structure ModelStatsEntry where
  model : String
  input_tokens : Int
  output_tokens : Int
  cache_read_tokens : Int
  cache_creation_tokens : Int
  total_tokens : Int
deriving DecidableEq, Repr

/-- GROUP BY model over joined model_usage rows, ordered by
input + output sums descending — the pure part of get_model_stats
(db.py lines 282-307). -/
def modelStatsOfRows (rows : List ModelUsageRow) : List ModelStatsEntry :=
  let models := (rows.map (fun r => r.model)).dedup
  let entries := models.map (fun mo =>
    let rs := rows.filter (fun r => r.model == mo)
    let i := (rs.map (fun r => r.input_tokens)).sum
    let o := (rs.map (fun r => r.output_tokens)).sum
    let cr := (rs.map (fun r => r.cache_read_tokens)).sum
    let cc := (rs.map (fun r => r.cache_creation_tokens)).sum
    ModelStatsEntry.mk mo i o cr cc (i + o + cr + cc))
  entries.insertionSort (fun a b =>
    b.input_tokens + b.output_tokens ≤ a.input_tokens + a.output_tokens)

/-- get_model_stats (db.py lines 282-307). -/
def get_model_stats (db : DB) : List ModelStatsEntry :=
  modelStatsOfRows (activeModelRows db)

/-- Result shape of get_totals (db.py lines 338-345). -/
structure TotalsResult where
  total_tokens : Int
  total_messages : Int
  total_sessions : Int
  machine_count : Nat
  first_activity : Option Int
  last_activity : Option Int
deriving DecidableEq, Repr

/-- MIN over a list of dates, NULL when empty. -/
def minDate (l : List Int) : Option Int :=
  l.foldl (fun acc d => match acc with
    | none => some d
    | some m => some (min m d)) none

/-- MAX over a list of dates, NULL when empty. -/
def maxDate (l : List Int) : Option Int :=
  l.foldl (fun acc d => match acc with
    | none => some d
    | some m => some (max m d)) none

/-- get_totals (db.py lines 310-345): lifetime sums over joined rows, the
count of active machines, and the min and max observed usage dates. -/
def get_totals (db : DB) : TotalsResult :=
  let urows := activeUsageRows db
  let arows := activeActivityRows db
  { total_tokens := (urows.map (fun r =>
      r.input_tokens + r.output_tokens + r.cache_read_tokens + r.cache_creation_tokens)).sum
    total_messages := (arows.map (fun r => r.message_count)).sum
    total_sessions := (arows.map (fun r => r.session_count)).sum
    machine_count := (db.machines.filter (fun m => m.is_active)).length
    first_activity := minDate (urows.map (fun r => r.date))
    last_activity := maxDate (urows.map (fun r => r.date)) }

/-! ## delete_machine and reactivate_machine (db.py lines 348-368) -/

/-- delete_machine (db.py lines 348-359). hard: DELETE FROM machines plus the
ON DELETE CASCADE removal of every dependent row. soft: UPDATE machines SET
is_active = 0. Returns the new store and rowcount > 0. -/
def delete_machine (hn : String) (hard : Bool) (db : DB) : DB × Bool :=
  let found := db.machines.any (fun m => m.hostname == hn)
  if hard then
    ({ machines := db.machines.filter (fun m => !(m.hostname == hn))
       daily_activity := db.daily_activity.filter (fun r => !(r.hostname == hn))
       daily_usage := db.daily_usage.filter (fun r => !(r.hostname == hn))
       model_usage := db.model_usage.filter (fun r => !(r.hostname == hn))
       raw_usage := db.raw_usage.filter (fun r => !(r.hostname == hn)) }, found)
  else
    ({ db with machines := db.machines.map (fun m =>
        if m.hostname == hn then { m with is_active := false } else m) }, found)

/-- reactivate_machine (db.py lines 362-368): UPDATE machines SET is_active = 1. -/
def reactivate_machine (hn : String) (db : DB) : DB × Bool :=
  let found := db.machines.any (fun m => m.hostname == hn)
  ({ db with machines := db.machines.map (fun m =>
      if m.hostname == hn then { m with is_active := true } else m) }, found)

/-! ## Client pending queue (local_cache.py lines 12-83)

A queued payload is the dict build_sync_payload returns, which has exactly the
SyncRequest shape, so SyncRequest doubles as the payload type. -/

/-- MAX_PENDING_SYNCS in local_cache.py line 12. -/
def MAX_PENDING_SYNCS : Nat := 100

/-- One entry of pending_syncs.json: the payload plus queued_at. -/
structure PendingSyncItem where
  payload : SyncRequest
  queued_at : Int
deriving DecidableEq, Repr

/-- queue_sync (local_cache.py lines 29-41): when the queue already holds at
least MAX_PENDING_SYNCS entries the single oldest is removed, then the new
item is appended. -/
def queue_sync (pending : List PendingSyncItem) (item : PendingSyncItem) :
    List PendingSyncItem :=
  let pending := if MAX_PENDING_SYNCS ≤ pending.length then pending.drop 1 else pending
  pending ++ [item]

/-- What one transport call (httpx post plus raise_for_status) can produce:
a parsed success body, an HTTPStatusError carrying the status code, or a
RequestError (connectivity failure or timeout) carrying its message. -/
inductive TransportResult where
  | success (records_upserted : Int)
  | httpError (code : Nat)
  | connectError (msg : String)
deriving DecidableEq, Repr

/-- process_pending_syncs (local_cache.py lines 60-83): attempt each queued
item independently; any exception keeps the item for next time. Returns the
remaining queue (persisted once at the end) and the success count. -/
def process_pending_syncs (transport : SyncRequest → TransportResult)
    (pending : List PendingSyncItem) : List PendingSyncItem × Nat :=
  pending.foldl (fun s item =>
    match transport item.payload with
    | TransportResult.success _ => (s.1, s.2 + 1)
    | _ => (s.1 ++ [item], s.2)) ([], 0)

/-! ## Delta engine (local_cache.py lines 100-178) -/

/-- The dict comprehension building model -> record from a snapshot list
(local_cache.py lines 148-149): a later entry for the same model wins. -/
def usageLookup (l : List ModelUsageRecord) (mo : String) : Option ModelUsageRecord :=
  l.foldl (fun acc u => if u.model == mo then some u else acc) none

/-- dict.get(key, 0) through an optional record: a model absent from a
snapshot reads every counter as 0. -/
def optTok (f : ModelUsageRecord → Int) : Option ModelUsageRecord → Int
  | none => 0
  | some r => f r

/-- set(prev) | set(curr) of model names (local_cache.py line 157). Python
iterates a set in unspecified order; the per-model terms are only ever summed,
so any enumeration without duplicates is faithful. -/
def allModels (prev curr : List ModelUsageRecord) : List String :=
  ((prev.map (fun u => u.model)) ++ (curr.map (fun u => u.model))).dedup

/-- The inner loop of compute_daily_deltas for one adjacent snapshot pair
(local_cache.py lines 151-165): accumulate, over every model of either
snapshot, max 0 (curr - prev) for each of the four counters. -/
def pairDayDelta (prev curr : List ModelUsageRecord) : Int × Int × Int × Int :=
  (allModels prev curr).foldl (fun acc mo =>
    let p := usageLookup prev mo
    let c := usageLookup curr mo
    (acc.1 + max 0 (optTok (fun u => u.input_tokens) c - optTok (fun u => u.input_tokens) p),
     acc.2.1 + max 0 (optTok (fun u => u.output_tokens) c - optTok (fun u => u.output_tokens) p),
     acc.2.2.1 + max 0 (optTok (fun u => u.cache_read_tokens) c - optTok (fun u => u.cache_read_tokens) p),
     acc.2.2.2 + max 0 (optTok (fun u => u.cache_creation_tokens) c - optTok (fun u => u.cache_creation_tokens) p)))
    (0, 0, 0, 0)

/-- One record of the compute_daily_deltas result (local_cache.py lines 169-176). -/
structure DeltaRecord where
  date : Int
  total_tokens : Int
  input_tokens : Int
  output_tokens : Int
  cache_read_tokens : Int
  cache_creation_tokens : Int
deriving DecidableEq, Repr

/-- snapshots[date] on the date-keyed snapshot store: a later entry for the
same date wins (save_usage_snapshot overwrites the day). -/
def snapLookup (snaps : List (Int × List ModelUsageRecord)) (d : Int) :
    List ModelUsageRecord :=
  snaps.foldl (fun acc s => if s.1 == d then s.2 else acc) []

/-- compute_daily_deltas (local_cache.py lines 125-178). The snapshot store is
the date-keyed dict of usage_snapshots.json. Empty store or fewer than two
snapshot dates give []; the two-snapshot check runs before the cutoff filter,
exactly as in the source. nowDay is the day number of datetime.now. -/
def compute_daily_deltas (nowDay : Int) (days : Int)
    (snaps : List (Int × List ModelUsageRecord)) : List DeltaRecord :=
  if snaps.isEmpty then []
  else
    let sorted_dates := (snaps.map (fun s => s.1)).insertionSort (fun a b => a ≤ b)
    if sorted_dates.length < 2 then []
    else
      let cutoff := nowDay - days
      let sorted_dates := sorted_dates.filter (fun d => cutoff ≤ d)
      (sorted_dates.zip sorted_dates.tail).map (fun pr =>
        let prevU := snapLookup snaps pr.1
        let currU := snapLookup snaps pr.2
        let dlt := pairDayDelta prevU currU
        { date := pr.2
          total_tokens := dlt.1 + dlt.2.1 + dlt.2.2.1 + dlt.2.2.2
          input_tokens := dlt.1
          output_tokens := dlt.2.1
          cache_read_tokens := dlt.2.2.1
          cache_creation_tokens := dlt.2.2.2 })

/-! ## Client config and sync orchestrator (config.py, sync.py) -/

/-- The persisted client configuration record (config.py lines 9-16).
Timestamps are seconds; last_sync is the stored isoformat timestamp. -/
structure ClientConfig where
  server_url : Option String
  api_key : Option String
  hostname : Option String
  last_sync : Option Int
  last_sync_success : Bool
  last_error : Option String
deriving DecidableEq, Repr

/-- DEFAULT_CONFIG (config.py lines 9-16). -/
def defaultConfig : ClientConfig := ⟨none, none, none, none, true, none⟩

/-- The local mutable state a sync touches: config.json plus pending_syncs.json. -/
structure ClientState where
  config : ClientConfig
  pending : List PendingSyncItem
deriving DecidableEq, Repr

/-- Result dataclass of sync.py lines 16-20. -/
structure SyncResult where
  status : String
  message : String
  records_synced : Int
deriving DecidableEq, Repr

/-- Python truthiness of config.get for an optional string: None and the empty
string are falsy. -/
def optStrTruthy : Option String → Bool
  | none => false
  | some s => !(s.isEmpty)

/-- do_sync (sync.py lines 59-102). First drains the pending queue, then posts
the freshly built payload. On success save_config records last_sync = now with
last_sync_success true; on a RequestError the payload is queued and save_config
records last_sync_success false; on an HTTPStatusError the function returns at
once — nothing is queued and save_config is never called. now is datetime.now
in seconds. -/
def do_sync (now : Int) (transport : SyncRequest → TransportResult)
    (payload : SyncRequest) (st : ClientState) : ClientState × SyncResult :=
  let pending1 := (process_pending_syncs transport st.pending).1
  match transport payload with
  | TransportResult.success n =>
    ({ config := { st.config with
         last_sync := some now
         last_sync_success := true
         last_error := none }
       pending := pending1 },
     { status := "success", message := "", records_synced := n })
  | TransportResult.connectError msg =>
    let pending2 := queue_sync pending1 { payload := payload, queued_at := now }
    ({ config := { st.config with
         last_sync := some now
         last_sync_success := false
         last_error := some ("Server unreachable: " ++ msg) }
       pending := pending2 },
     { status := "queued", message := "Server unreachable: " ++ msg, records_synced := 0 })
  | TransportResult.httpError code =>
    ({ st with pending := pending1 },
     { status := "error", message := "Server error: " ++ toString code, records_synced := 0 })

/-- The should_sync condition of maybe_auto_sync (sync.py lines 47-51):
force, or no stored last_sync, or the stored last_sync is more than one hour
(3600 seconds) old. -/
def should_sync (now : Int) (force : Bool) (last : Option Int) : Bool :=
  force || (match last with
    | none => true
    | some t => decide (now - t > 3600))

/-- maybe_auto_sync (sync.py lines 28-56): skip when server_url or api_key is
not configured (falsy), skip when recently synced, otherwise run do_sync. -/
def maybe_auto_sync (now : Int) (transport : SyncRequest → TransportResult)
    (payload : SyncRequest) (force : Bool) (st : ClientState) :
    ClientState × SyncResult :=
  if !(optStrTruthy st.config.server_url) then
    (st, { status := "skipped", message := "Server not configured", records_synced := 0 })
  else if !(optStrTruthy st.config.api_key) then
    (st, { status := "skipped", message := "API key not configured", records_synced := 0 })
  else if !(should_sync now force st.config.last_sync) then
    (st, { status := "skipped", message := "Recently synced", records_synced := 0 })
  else
    do_sync now transport payload st

/-! # Theorems -/

/-! ## C1, C2, C10: the sync transaction -/

/-- C1. The claim says every valid SyncRequest submitted twice yields the same
records_upserted on the second submission and identical stored state. The code
cannot exhibit this: sync_usage reads request.raw_usage (db.py line 197), a
field the SyncRequest model does not declare, so every call raises
AttributeError, rolls back, and returns no count at all — the store is left
exactly as before on every submission, successful upsert never happens. -/
theorem c1_sync_usage_always_raises (tick : Int) (db : DB) (req : SyncRequest) :
    sync_usage tick db req = (db, Except.error PyErr.attributeError) := rfl

/-- C2. Every sync call is atomic: either the transaction body succeeds and
its final state (with all rows of the submission applied) is committed, or the
body raises and the store keeps its exact prior state. With the raw_usage
AttributeError the rollback branch is the one taken on every call. -/
theorem c2_sync_atomic (tick : Int) (db : DB) (req : SyncRequest) :
    (∃ e, sync_usage tick db req = (db, Except.error e)) ∨
    (∃ db2 n b, sync_usage_tx tick db req = Except.ok (db2, n, b) ∧
      sync_usage tick db req = (db2, Except.ok (n, b))) := by
  cases h : sync_usage_tx tick db req with
  | error e => exact Or.inl ⟨e, by simp [sync_usage, h]⟩
  | ok out => exact Or.inr ⟨out.1, out.2.1, out.2.2, by simp [h], by simp [sync_usage, h]⟩

/-- C10. For a validated request with one daily_activity, one daily_usage and
one model_usage record, the claim expects a normal return with
records_upserted = 3. The code instead raises AttributeError at
request.raw_usage and the endpoint replies with an internal error; no count is
ever produced. -/
theorem c10_records_upserted_never_returned :
    validateSyncRequest ⟨700, 0⟩
      ⟨1, "h1", [⟨700, 10, 1, 5⟩], [⟨700, 400, 600, 0, 0⟩], [⟨"claude-opus", 100, 50, 0, 0⟩]⟩ = true
    ∧ sync_endpoint ⟨700, 0⟩ emptyDB
      ⟨1, "h1", [⟨700, 10, 1, 5⟩], [⟨700, 400, 600, 0, 0⟩], [⟨"claude-opus", 100, 50, 0, 0⟩]⟩
      = (emptyDB, ServerReply.internalError PyErr.attributeError) := by
  constructor
  · decide
  · decide

/-! ## C3: date-window validation -/

/-- timedelta.days of a span of whole days plus a fraction of a day is the
whole-day count. -/
theorem timedeltaDays_whole (a tod : Int) (h0 : 0 ≤ tod) (h1 : tod < 86400) :
    timedeltaDays (a * 86400 + tod) = a := by
  unfold timedeltaDays
  rw [Int.fdiv_eq_ediv _ (by omega)]
  omega

/-- A date strictly older than MAX_SYNC_DAYS, or strictly in the future,
fails validate_date_format. -/
theorem validDate_false_of_out_of_range (now : PyNow) (d : Int)
    (h0 : 0 ≤ now.tod) (h1 : now.tod < 86400)
    (hbad : now.day - d > MAX_SYNC_DAYS ∨ d > now.day) :
    validDate now d = false := by
  unfold validDate
  rw [timedeltaDays_whole _ _ h0 h1]
  rcases hbad with h | h
  · simp only [Bool.and_eq_false_iff]
    left
    simpa using h
  · simp only [Bool.and_eq_false_iff]
    right
    simpa using h

/-- C3. If any record of the submission carries a date strictly more than
MAX_SYNC_DAYS days in the past or strictly in the future relative to receipt
time, the whole request fails validation at the endpoint and the store is
untouched. -/
theorem c3_out_of_range_rejected (now : PyNow) (db : DB) (req : SyncRequest) (d : Int)
    (h0 : 0 ≤ now.tod) (h1 : now.tod < 86400)
    (hmem : (∃ r ∈ req.daily_activity, r.date = d) ∨ (∃ r ∈ req.daily_usage, r.date = d))
    (hbad : now.day - d > MAX_SYNC_DAYS ∨ d > now.day) :
    sync_endpoint now db req = (db, ServerReply.validationFailed) := by
  have hvd : validDate now d = false := validDate_false_of_out_of_range now d h0 h1 hbad
  have hv : validateSyncRequest now req = false := by
    unfold validateSyncRequest
    rcases hmem with ⟨r, hr, hd⟩ | ⟨r, hr, hd⟩
    · have hall : req.daily_activity.all (fun r =>
          validDate now r.date && decide (0 ≤ r.message_count) &&
          decide (0 ≤ r.session_count) && decide (0 ≤ r.tool_call_count)) = false := by
        rw [List.all_eq_false]
        refine ⟨r, hr, ?_⟩
        rw [hd, hvd]
        simp
      rw [hall]
      simp
    · have hall : req.daily_usage.all (fun r =>
          validDate now r.date && decide (0 ≤ r.input_tokens) &&
          decide (0 ≤ r.output_tokens) && decide (0 ≤ r.cache_read_tokens) &&
          decide (0 ≤ r.cache_creation_tokens)) = false := by
        rw [List.all_eq_false]
        refine ⟨r, hr, ?_⟩
        rw [hd, hvd]
        simp
      rw [hall]
      simp
  simp [sync_endpoint, hv]

/-- Witness for C3 at a concrete input: receipt day 1000, a usage record dated
day 500 (500 days in the past), empty store. -/
theorem c3_out_of_range_rejected_witness :
    sync_endpoint ⟨1000, 0⟩ emptyDB ⟨1, "h1", [], [⟨500, 1, 1, 0, 0⟩], []⟩
      = (emptyDB, ServerReply.validationFailed) :=
  c3_out_of_range_rejected ⟨1000, 0⟩ emptyDB ⟨1, "h1", [], [⟨500, 1, 1, 0, 0⟩], []⟩ 500
    (by decide) (by decide)
    (Or.inr ⟨⟨500, 1, 1, 0, 0⟩, by decide, rfl⟩)
    (Or.inl (by decide))

/-! ## C4: bounded FIFO pending queue -/

/-- A sequence of queue_sync calls starting from a given queue. -/
def enqueueAll (init : List PendingSyncItem) (items : List PendingSyncItem) :
    List PendingSyncItem :=
  items.foldl queue_sync init

/-- Below capacity, queue_sync is a plain append. -/
theorem queue_sync_below (q : List PendingSyncItem) (x : PendingSyncItem)
    (h : q.length < MAX_PENDING_SYNCS) : queue_sync q x = q ++ [x] := by
  unfold queue_sync
  rw [if_neg (by omega)]

/-- At or above capacity, queue_sync drops the single oldest entry then
appends. -/
theorem queue_sync_at_cap (q : List PendingSyncItem) (x : PendingSyncItem)
    (h : MAX_PENDING_SYNCS ≤ q.length) : queue_sync q x = q.drop 1 ++ [x] := by
  unfold queue_sync
  rw [if_pos h]

/-- Enqueueing a batch onto a queue not above capacity keeps exactly the
newest MAX_PENDING_SYNCS entries of the concatenation. -/
theorem enqueueAll_eq_drop (items : List PendingSyncItem) :
    ∀ q : List PendingSyncItem, q.length ≤ MAX_PENDING_SYNCS →
      enqueueAll q items = (q ++ items).drop (q.length + items.length - MAX_PENDING_SYNCS) := by
  induction items with
  | nil =>
    intro q hq
    simp only [enqueueAll, List.foldl_nil, List.append_nil, List.length_nil, Nat.add_zero]
    rw [show q.length - MAX_PENDING_SYNCS = 0 from by
      simp only [MAX_PENDING_SYNCS] at *; omega]
    rw [List.drop_zero]
  | cons x xs ih =>
    intro q hq
    have hstep : enqueueAll q (x :: xs) = enqueueAll (queue_sync q x) xs := rfl
    rw [hstep]
    by_cases hcap : q.length < MAX_PENDING_SYNCS
    · rw [queue_sync_below q x hcap]
      rw [ih (q ++ [x]) (by simp only [List.length_append, List.length_cons,
        List.length_nil, MAX_PENDING_SYNCS] at *; omega)]
      have hlen : (q ++ [x]).length + xs.length - MAX_PENDING_SYNCS
          = q.length + (x :: xs).length - MAX_PENDING_SYNCS := by
        simp only [List.length_append, List.length_cons, List.length_nil]
        omega
      rw [hlen, List.append_assoc]
      rfl
    · have hfull : q.length = MAX_PENDING_SYNCS := by omega
      rw [queue_sync_at_cap q x (by omega)]
      rw [ih (q.drop 1 ++ [x]) (by simp only [List.length_append, List.length_drop,
        List.length_cons, List.length_nil, MAX_PENDING_SYNCS] at *; omega)]
      have hlen : (q.drop 1 ++ [x]).length + xs.length - MAX_PENDING_SYNCS = xs.length := by
        simp only [List.length_append, List.length_drop, List.length_cons,
          List.length_nil, MAX_PENDING_SYNCS] at *
        omega
      rw [hlen]
      have hidx : q.length + (x :: xs).length - MAX_PENDING_SYNCS = 1 + xs.length := by
        simp only [List.length_cons, MAX_PENDING_SYNCS] at *
        omega
      rw [hidx, ← List.drop_drop,
        @List.drop_append_of_le_length _ q (x :: xs) 1
          (by simp only [MAX_PENDING_SYNCS] at hfull; omega),
        List.append_assoc, List.singleton_append]

/-- C4. Enqueueing N > 100 items into an initially empty Pending Queue leaves
exactly MAX_PENDING_SYNCS = 100 items, and they are precisely the 100 most
recently enqueued ones (the suffix of the enqueue sequence; the oldest entry
was evicted first each time). -/
theorem c4_bounded_fifo (items : List PendingSyncItem)
    (h : MAX_PENDING_SYNCS < items.length) :
    (enqueueAll [] items).length = MAX_PENDING_SYNCS ∧
    enqueueAll [] items = items.drop (items.length - MAX_PENDING_SYNCS) := by
  have key := enqueueAll_eq_drop items [] (by simp [MAX_PENDING_SYNCS])
  simp only [List.length_nil, List.nil_append, Nat.zero_add] at key
  refine ⟨?_, key⟩
  rw [key, List.length_drop]
  simp only [MAX_PENDING_SYNCS] at *
  omega

/-- Witness for C4: 101 distinct items enqueued from empty. -/
theorem c4_bounded_fifo_witness :
    MAX_PENDING_SYNCS <
      ((List.range 101).map (fun i => PendingSyncItem.mk ⟨1, "h", [], [], []⟩ (i : Int))).length ∧
    ((enqueueAll [] ((List.range 101).map
        (fun i => PendingSyncItem.mk ⟨1, "h", [], [], []⟩ (i : Int)))).length = MAX_PENDING_SYNCS ∧
      enqueueAll [] ((List.range 101).map
        (fun i => PendingSyncItem.mk ⟨1, "h", [], [], []⟩ (i : Int)))
        = ((List.range 101).map (fun i => PendingSyncItem.mk ⟨1, "h", [], [], []⟩ (i : Int))).drop
            (((List.range 101).map
              (fun i => PendingSyncItem.mk ⟨1, "h", [], [], []⟩ (i : Int))).length
              - MAX_PENDING_SYNCS)) :=
  ⟨by decide, c4_bounded_fifo _ (by decide)⟩

/-! ## C5: delta clamping -/

/-- Modelled from the spec wording of the delta policy: for a model and a
counter accessor, the per-model delta is max 0 (curr value - prev value), an
absent model reading as 0. Compared below against the loop of
compute_daily_deltas. -/
def specModelDelta (f : ModelUsageRecord → Int) (prev curr : List ModelUsageRecord)
    (mo : String) : Int :=
  max 0 (optTok f (usageLookup curr mo) - optTok f (usageLookup prev mo))

/-- The per-pair accumulation loop of compute_daily_deltas equals, in each of
the four counters, the sum of the clamped per-model deltas over the models of
either snapshot. -/
theorem pairDayDelta_eq_sums (prev curr : List ModelUsageRecord) :
    pairDayDelta prev curr =
      (((allModels prev curr).map (specModelDelta (fun u => u.input_tokens) prev curr)).sum,
       ((allModels prev curr).map (specModelDelta (fun u => u.output_tokens) prev curr)).sum,
       ((allModels prev curr).map (specModelDelta (fun u => u.cache_read_tokens) prev curr)).sum,
       ((allModels prev curr).map (specModelDelta (fun u => u.cache_creation_tokens) prev curr)).sum) := by
  have h : ∀ (l : List String) (a b c d : Int),
      List.foldl (fun (acc : Int × Int × Int × Int) mo =>
        (acc.1 + max 0 (optTok (fun u => u.input_tokens) (usageLookup curr mo)
            - optTok (fun u => u.input_tokens) (usageLookup prev mo)),
         acc.2.1 + max 0 (optTok (fun u => u.output_tokens) (usageLookup curr mo)
            - optTok (fun u => u.output_tokens) (usageLookup prev mo)),
         acc.2.2.1 + max 0 (optTok (fun u => u.cache_read_tokens) (usageLookup curr mo)
            - optTok (fun u => u.cache_read_tokens) (usageLookup prev mo)),
         acc.2.2.2 + max 0 (optTok (fun u => u.cache_creation_tokens) (usageLookup curr mo)
            - optTok (fun u => u.cache_creation_tokens) (usageLookup prev mo))))
        (a, b, c, d) l
      = (a + (l.map (specModelDelta (fun u => u.input_tokens) prev curr)).sum,
         b + (l.map (specModelDelta (fun u => u.output_tokens) prev curr)).sum,
         c + (l.map (specModelDelta (fun u => u.cache_read_tokens) prev curr)).sum,
         d + (l.map (specModelDelta (fun u => u.cache_creation_tokens) prev curr)).sum) := by
    intro l
    induction l with
    | nil => intro a b c d; simp
    | cons mo l ih =>
      intro a b c d
      rw [List.foldl_cons, ih]
      simp only [List.map_cons, List.sum_cons, specModelDelta, Prod.mk.injEq]
      refine ⟨by ring, by ring, by ring, by ring⟩
  calc pairDayDelta prev curr
      = (0 + ((allModels prev curr).map (specModelDelta (fun u => u.input_tokens) prev curr)).sum,
         0 + ((allModels prev curr).map (specModelDelta (fun u => u.output_tokens) prev curr)).sum,
         0 + ((allModels prev curr).map (specModelDelta (fun u => u.cache_read_tokens) prev curr)).sum,
         0 + ((allModels prev curr).map (specModelDelta (fun u => u.cache_creation_tokens) prev curr)).sum) :=
        h (allModels prev curr) 0 0 0 0
    _ = _ := by simp

/-- Every record compute_daily_deltas emits has all four counters nonnegative. -/
theorem compute_daily_deltas_nonneg (nowDay days : Int)
    (snaps : List (Int × List ModelUsageRecord)) :
    (compute_daily_deltas nowDay days snaps).all (fun r =>
      decide (0 ≤ r.input_tokens) && decide (0 ≤ r.output_tokens) &&
      decide (0 ≤ r.cache_read_tokens) && decide (0 ≤ r.cache_creation_tokens)) = true := by
  rw [List.all_eq_true]
  intro r hr
  unfold compute_daily_deltas at hr
  split at hr
  · simp at hr
  · dsimp only at hr
    split at hr
    · simp at hr
    · obtain ⟨pr, hpr, hf⟩ := List.mem_map.1 hr
      have hsum : ∀ f : ModelUsageRecord → Int, 0 ≤
          ((allModels (snapLookup snaps pr.1) (snapLookup snaps pr.2)).map
            (specModelDelta f (snapLookup snaps pr.1) (snapLookup snaps pr.2))).sum := by
        intro f
        refine List.sum_nonneg ?_
        intro x hx
        obtain ⟨mo, _, rfl⟩ := List.mem_map.1 hx
        exact le_max_left 0 _
      have h1 : r.input_tokens =
          ((allModels (snapLookup snaps pr.1) (snapLookup snaps pr.2)).map
            (specModelDelta (fun u => u.input_tokens) (snapLookup snaps pr.1)
              (snapLookup snaps pr.2))).sum := by
        rw [← hf]
        show (pairDayDelta (snapLookup snaps pr.1) (snapLookup snaps pr.2)).1 = _
        rw [pairDayDelta_eq_sums]
      have h2 : r.output_tokens =
          ((allModels (snapLookup snaps pr.1) (snapLookup snaps pr.2)).map
            (specModelDelta (fun u => u.output_tokens) (snapLookup snaps pr.1)
              (snapLookup snaps pr.2))).sum := by
        rw [← hf]
        show (pairDayDelta (snapLookup snaps pr.1) (snapLookup snaps pr.2)).2.1 = _
        rw [pairDayDelta_eq_sums]
      have h3 : r.cache_read_tokens =
          ((allModels (snapLookup snaps pr.1) (snapLookup snaps pr.2)).map
            (specModelDelta (fun u => u.cache_read_tokens) (snapLookup snaps pr.1)
              (snapLookup snaps pr.2))).sum := by
        rw [← hf]
        show (pairDayDelta (snapLookup snaps pr.1) (snapLookup snaps pr.2)).2.2.1 = _
        rw [pairDayDelta_eq_sums]
      have h4 : r.cache_creation_tokens =
          ((allModels (snapLookup snaps pr.1) (snapLookup snaps pr.2)).map
            (specModelDelta (fun u => u.cache_creation_tokens) (snapLookup snaps pr.1)
              (snapLookup snaps pr.2))).sum := by
        rw [← hf]
        show (pairDayDelta (snapLookup snaps pr.1) (snapLookup snaps pr.2)).2.2.2 = _
        rw [pairDayDelta_eq_sums]
      simp only [Bool.and_eq_true, decide_eq_true_eq]
      exact ⟨⟨⟨h1 ▸ hsum _, h2 ▸ hsum _⟩, h3 ▸ hsum _⟩, h4 ▸ hsum _⟩

/-- C5. The delta engine clamps: each counter of the per-pair loop is the sum
over the models of either snapshot of max 0 (curr - prev); each clamped
per-model delta is nonnegative; every emitted record has nonnegative
counters; and concretely, two snapshots whose only model drops its cumulative
input_tokens from 500 to 100 yield a delta record of all zeros, never a
negative value. -/
theorem c5_delta_clamped :
    (∀ prev curr : List ModelUsageRecord, pairDayDelta prev curr =
      (((allModels prev curr).map (specModelDelta (fun u => u.input_tokens) prev curr)).sum,
       ((allModels prev curr).map (specModelDelta (fun u => u.output_tokens) prev curr)).sum,
       ((allModels prev curr).map (specModelDelta (fun u => u.cache_read_tokens) prev curr)).sum,
       ((allModels prev curr).map (specModelDelta (fun u => u.cache_creation_tokens) prev curr)).sum))
    ∧ (∀ (f : ModelUsageRecord → Int) (prev curr : List ModelUsageRecord) (mo : String),
        0 ≤ specModelDelta f prev curr mo)
    ∧ (∀ (nowDay days : Int) (snaps : List (Int × List ModelUsageRecord)),
        (compute_daily_deltas nowDay days snaps).all (fun r =>
          decide (0 ≤ r.input_tokens) && decide (0 ≤ r.output_tokens) &&
          decide (0 ≤ r.cache_read_tokens) && decide (0 ≤ r.cache_creation_tokens)) = true)
    ∧ compute_daily_deltas 3 30 [(1, [⟨"m", 500, 0, 0, 0⟩]), (2, [⟨"m", 100, 0, 0, 0⟩])]
        = [⟨2, 0, 0, 0, 0, 0⟩] :=
  ⟨pairDayDelta_eq_sums,
   fun _ _ _ _ => le_max_left 0 _,
   compute_daily_deltas_nonneg,
   by decide⟩

/-! ## C6: the maybe-sync decision -/

/-- C6 counterexample. The claim says the decision proceeds if and only if
force is set, or no prior successful sync timestamp exists, or the last
successful sync is over an hour old. Two concrete refutations: (1) with force
set but no server configured the code reports skipped, so force does not
imply proceeding; (2) starting from a configured fresh state whose only sync
attempt was a connectivity failure (so no successful sync ever happened,
last_sync_success is false), a call 300 seconds later still reports skipped,
because the code throttles on the timestamp of the last attempt, which
do_sync also writes on failure. -/
theorem c6_counterexample :
    ((maybe_auto_sync 0 (fun _ => TransportResult.success 0) ⟨1, "h", [], [], []⟩ true
        ⟨defaultConfig, []⟩).2).status = "skipped"
    ∧ ((do_sync 1000 (fun _ => TransportResult.connectError "down") ⟨1, "h", [], [], []⟩
        ⟨⟨some "http://s", some "k", none, none, true, none⟩, []⟩).1).config.last_sync_success
        = false
    ∧ ((maybe_auto_sync 1300 (fun _ => TransportResult.success 0) ⟨1, "h", [], [], []⟩ false
        ((do_sync 1000 (fun _ => TransportResult.connectError "down") ⟨1, "h", [], [], []⟩
          ⟨⟨some "http://s", some "k", none, none, true, none⟩, []⟩).1)).2).status
        = "skipped" := by
  refine ⟨rfl, rfl, rfl⟩

/-- C6 amended: provided server_url and api_key are configured (non-empty),
maybe_auto_sync runs do_sync exactly when force is set, or no last_sync
timestamp is recorded, or the recorded timestamp — the time of the last
attempt, successful or not — is more than one hour old; otherwise it returns
the skipped result and the state (queue and config) is returned untouched.
Without a configured server or key it skips regardless of force. -/
theorem c6_throttle_decision (now : Int) (transport : SyncRequest → TransportResult)
    (payload : SyncRequest) (force : Bool) (st : ClientState)
    (hs : optStrTruthy st.config.server_url = true)
    (hk : optStrTruthy st.config.api_key = true) :
    maybe_auto_sync now transport payload force st =
      (if should_sync now force st.config.last_sync then do_sync now transport payload st
       else (st, { status := "skipped", message := "Recently synced", records_synced := 0 })) := by
  unfold maybe_auto_sync
  rw [hs, hk]
  by_cases h : should_sync now force st.config.last_sync
  · rw [h]
    simp
  · rw [Bool.eq_false_iff.2 h]
    simp

/-- Witness for C6 at a configured state: force set, fresh config, the
decision runs do_sync. -/
theorem c6_throttle_decision_witness :
    maybe_auto_sync 10 (fun _ => TransportResult.success 5) ⟨1, "h", [], [], []⟩ true
      ⟨⟨some "http://s", some "k", none, none, true, none⟩, []⟩ =
      (if should_sync 10 true (none : Option Int) then
        do_sync 10 (fun _ => TransportResult.success 5) ⟨1, "h", [], [], []⟩
          ⟨⟨some "http://s", some "k", none, none, true, none⟩, []⟩
       else (⟨⟨some "http://s", some "k", none, none, true, none⟩, []⟩,
         { status := "skipped", message := "Recently synced", records_synced := 0 })) :=
  c6_throttle_decision 10 (fun _ => TransportResult.success 5) ⟨1, "h", [], [], []⟩ true
    ⟨⟨some "http://s", some "k", none, none, true, none⟩, []⟩ (by decide) (by decide)

/-! ## C7: connectivity failure -/

/-- When every transport call fails with a connectivity error, the drain
keeps every queued item in order and delivers none. -/
theorem process_pending_all_fail (transport : SyncRequest → TransportResult) (em : String)
    (hT : ∀ p, transport p = TransportResult.connectError em)
    (pending : List PendingSyncItem) :
    process_pending_syncs transport pending = (pending, 0) := by
  suffices h : ∀ (l : List PendingSyncItem) (acc : List PendingSyncItem) (s : Nat),
      l.foldl (fun s item =>
        match transport item.payload with
        | TransportResult.success _ => (s.1, s.2 + 1)
        | _ => (s.1 ++ [item], s.2)) (acc, s) = (acc ++ l, s) by
    have := h pending [] 0
    simpa [process_pending_syncs] using this
  intro l
  induction l with
  | nil => intro acc s; simp
  | cons x xs ih =>
    intro acc s
    rw [List.foldl_cons, hT x.payload, ih]
    simp

/-- The queue length after queue_sync is the old length plus one, capped at
MAX_PENDING_SYNCS (for a queue not already above capacity). -/
theorem queue_sync_length (q : List PendingSyncItem) (x : PendingSyncItem)
    (h : q.length ≤ MAX_PENDING_SYNCS) :
    (queue_sync q x).length = min (q.length + 1) MAX_PENDING_SYNCS := by
  by_cases hc : MAX_PENDING_SYNCS ≤ q.length
  · rw [queue_sync_at_cap q x hc]
    simp only [List.length_append, List.length_drop, List.length_cons, List.length_nil,
      MAX_PENDING_SYNCS] at *
    omega
  · rw [queue_sync_below q x (by omega)]
    simp only [List.length_append, List.length_cons, List.length_nil,
      MAX_PENDING_SYNCS] at *
    omega

set_option maxRecDepth 8000 in
/-- C7 counterexample. The claim says a connectivity failure makes the queue
length increase by exactly 1. With the queue already at its capacity of 100
the length stays 100 (the oldest entry is evicted), so the increase-by-one
part of the claim fails. -/
theorem c7_counterexample :
    (((List.range 100).map (fun i => PendingSyncItem.mk ⟨1, "h", [], [], []⟩ (i : Int))).length
      = 100)
    ∧ (((do_sync 0 (fun _ => TransportResult.connectError "down") ⟨1, "h", [], [], []⟩
        ⟨⟨some "http://s", some "k", none, none, true, none⟩,
         (List.range 100).map (fun i => PendingSyncItem.mk ⟨1, "h", [], [], []⟩ (i : Int))⟩).1).pending.length
      = 100) := by
  constructor
  · decide
  · decide

/-- C7 amended: a sync attempt whose transport calls all raise connectivity
failures reports status queued, records last_sync_success = false in the
config, and the Pending Queue length becomes min (previous + 1)
MAX_PENDING_SYNCS — an increase of exactly 1 whenever the queue was below
capacity, and unchanged at 100 when it was full (oldest entry evicted). -/
theorem c7_connectivity_queued (now : Int) (transport : SyncRequest → TransportResult)
    (em : String) (payload : SyncRequest) (st : ClientState)
    (hT : ∀ p, transport p = TransportResult.connectError em)
    (hlen : st.pending.length ≤ MAX_PENDING_SYNCS) :
    ((do_sync now transport payload st).2).status = "queued"
    ∧ ((do_sync now transport payload st).1).config.last_sync_success = false
    ∧ ((do_sync now transport payload st).1).pending.length
        = min (st.pending.length + 1) MAX_PENDING_SYNCS := by
  unfold do_sync
  rw [process_pending_all_fail transport em hT st.pending, hT payload]
  exact ⟨rfl, rfl, queue_sync_length st.pending _ hlen⟩

/-- Witness for C7: empty queue, transport always unreachable. -/
theorem c7_connectivity_queued_witness :
    ((do_sync 7 (fun _ => TransportResult.connectError "x") ⟨1, "h", [], [], []⟩
        ⟨⟨some "http://s", some "k", none, none, true, none⟩, []⟩).2).status = "queued"
    ∧ ((do_sync 7 (fun _ => TransportResult.connectError "x") ⟨1, "h", [], [], []⟩
        ⟨⟨some "http://s", some "k", none, none, true, none⟩, []⟩).1).config.last_sync_success = false
    ∧ ((do_sync 7 (fun _ => TransportResult.connectError "x") ⟨1, "h", [], [], []⟩
        ⟨⟨some "http://s", some "k", none, none, true, none⟩, []⟩).1).pending.length
        = min (([] : List PendingSyncItem).length + 1) MAX_PENDING_SYNCS :=
  c7_connectivity_queued 7 (fun _ => TransportResult.connectError "x") "x" ⟨1, "h", [], [], []⟩
    ⟨⟨some "http://s", some "k", none, none, true, none⟩, []⟩ (fun _ => rfl) (by decide)

/-! ## C8: server-side rejection -/

/-- C8 counterexample. The claim says an HTTP rejection marks the local last
sync health flag failed in the persisted configuration. Concretely, with the
flag previously true, a 401 rejection returns status error but leaves
last_sync_success = true: the HTTPStatusError branch of do_sync returns
without calling save_config. -/
theorem c8_counterexample :
    ((do_sync 5 (fun _ => TransportResult.httpError 401) ⟨1, "h", [], [], []⟩
        ⟨⟨some "http://s", some "k", none, none, true, none⟩, []⟩).2).status = "error"
    ∧ ((do_sync 5 (fun _ => TransportResult.httpError 401) ⟨1, "h", [], [], []⟩
        ⟨⟨some "http://s", some "k", none, none, true, none⟩, []⟩).1).config.last_sync_success
        = true := by
  refine ⟨rfl, rfl⟩

/-- C8 amended: on a server-side rejection (HTTPStatusError) the error is
surfaced immediately with the status code, the payload is not enqueued (the
queue is exactly the post-drain queue), and the persisted configuration is
left entirely untouched — in particular the last-sync health flag keeps its
prior value and is NOT marked failed. -/
theorem c8_rejection_not_queued (now : Int) (transport : SyncRequest → TransportResult)
    (payload : SyncRequest) (st : ClientState) (code : Nat)
    (h : transport payload = TransportResult.httpError code) :
    ((do_sync now transport payload st).2).status = "error"
    ∧ ((do_sync now transport payload st).2).message = "Server error: " ++ toString code
    ∧ ((do_sync now transport payload st).1).config = st.config
    ∧ ((do_sync now transport payload st).1).pending
        = (process_pending_syncs transport st.pending).1 := by
  unfold do_sync
  rw [h]
  exact ⟨rfl, rfl, rfl, rfl⟩

/-- Witness for C8: concrete 401 rejection on a fresh configured state. -/
theorem c8_rejection_not_queued_witness :
    ((do_sync 5 (fun _ => TransportResult.httpError 401) ⟨1, "h2", [], [], []⟩
        ⟨⟨some "http://s", some "k", none, some 3, true, none⟩, []⟩).2).status = "error"
    ∧ ((do_sync 5 (fun _ => TransportResult.httpError 401) ⟨1, "h2", [], [], []⟩
        ⟨⟨some "http://s", some "k", none, some 3, true, none⟩, []⟩).2).message
        = "Server error: " ++ toString 401
    ∧ ((do_sync 5 (fun _ => TransportResult.httpError 401) ⟨1, "h2", [], [], []⟩
        ⟨⟨some "http://s", some "k", none, some 3, true, none⟩, []⟩).1).config
        = ⟨some "http://s", some "k", none, some 3, true, none⟩
    ∧ ((do_sync 5 (fun _ => TransportResult.httpError 401) ⟨1, "h2", [], [], []⟩
        ⟨⟨some "http://s", some "k", none, some 3, true, none⟩, []⟩).1).pending
        = (process_pending_syncs (fun _ => TransportResult.httpError 401)
            ([] : List PendingSyncItem)).1 :=
  c8_rejection_not_queued 5 (fun _ => TransportResult.httpError 401) ⟨1, "h2", [], [], []⟩
    ⟨⟨some "http://s", some "k", none, some 3, true, none⟩, []⟩ 401 rfl

/-! ## C9: soft delete and aggregates -/

/-- After flagging every machine named h inactive, the active-join test for a
hostname is the original test restricted to hostnames other than h. -/
theorem machineActiveFor_deactivate (h hn0 : String) (ms : List MachineRow) :
    machineActiveFor (ms.map (fun m =>
        if m.hostname == h then { m with is_active := false } else m)) hn0
      = ((!(hn0 == h)) && machineActiveFor ms hn0) := by
  rw [Bool.eq_iff_iff]
  simp only [machineActiveFor, List.any_eq_true, List.mem_map, Bool.and_eq_true,
    Bool.not_eq_true', beq_eq_false_iff_ne, beq_iff_eq]
  constructor
  · rintro ⟨x, ⟨m, hm, rfl⟩, hx1, hx2⟩
    by_cases h1 : m.hostname = h
    · rw [if_pos h1] at hx2
      simp at hx2
    · rw [if_neg h1] at hx1 hx2
      exact ⟨fun he => h1 (hx1.trans he), m, hm, hx1, hx2⟩
  · rintro ⟨hne, m, hm, h1, h2⟩
    exact ⟨m, ⟨m, hm, if_neg (fun he => hne (h1.symm.trans he))⟩, h1, h2⟩

/-- After hard-deleting every machine named h, the active-join test for a
hostname is likewise the original test restricted to other hostnames. -/
theorem machineActiveFor_hardfilter (h hn0 : String) (ms : List MachineRow) :
    machineActiveFor (ms.filter (fun m => !(m.hostname == h))) hn0
      = ((!(hn0 == h)) && machineActiveFor ms hn0) := by
  rw [Bool.eq_iff_iff]
  simp only [machineActiveFor, List.any_eq_true, List.mem_filter, Bool.and_eq_true,
    Bool.not_eq_true', beq_eq_false_iff_ne, beq_iff_eq]
  constructor
  · rintro ⟨m, ⟨hm, hmh⟩, h1, h2⟩
    exact ⟨fun he => hmh (h1.trans he), m, hm, h1, h2⟩
  · rintro ⟨hne, m, hm, h1, h2⟩
    exact ⟨m, ⟨hm, fun he => hne (h1.symm.trans he)⟩, h1, h2⟩

/-- Joined data rows after a soft delete of h coincide with the joined data
rows after a hard delete of h: the contribution of h is removed either way. -/
theorem filter_active_soft_eq_hard {α : Type} (f : α → String) (h : String)
    (ms : List MachineRow) (rows : List α) :
    rows.filter (fun r => machineActiveFor (ms.map (fun m =>
        if m.hostname == h then { m with is_active := false } else m)) (f r))
    = (rows.filter (fun r => !(f r == h))).filter (fun r =>
        machineActiveFor (ms.filter (fun m => !(m.hostname == h))) (f r)) := by
  rw [List.filter_filter]
  refine List.filter_congr ?_
  intro x _
  rw [machineActiveFor_deactivate, machineActiveFor_hardfilter]
  cases hb : (f x == h) <;> cases ha : machineActiveFor ms (f x) <;> simp [hb, ha]

/-- The active machine rows after a soft delete of h equal those after a hard
delete of h. -/
theorem filter_is_active_soft_eq_hard (h : String) (ms : List MachineRow) :
    (ms.map (fun m => if m.hostname == h then { m with is_active := false } else m)).filter
        (fun m => m.is_active)
      = (ms.filter (fun m => !(m.hostname == h))).filter (fun m => m.is_active) := by
  rw [List.filter_map, List.filter_filter]
  have hpt : ∀ m ∈ ms,
      ((fun m : MachineRow => m.is_active) ∘ (fun m =>
        if m.hostname == h then { m with is_active := false } else m)) m
        = (m.is_active && !(m.hostname == h)) := by
    intro m _
    by_cases h1 : m.hostname = h
    · simp [Function.comp, if_pos (beq_iff_eq.mpr h1), beq_iff_eq, h1]
    · simp [Function.comp, if_neg (fun hc => h1 (beq_iff_eq.mp hc)), beq_iff_eq, h1]
  rw [List.filter_congr hpt]
  refine (List.map_congr_left ?_).trans (List.map_id _)
  intro a ha
  have hmem := (List.mem_filter.1 ha).2
  simp only [Bool.and_eq_true, Bool.not_eq_true', beq_eq_false_iff_ne] at hmem
  show (if a.hostname == h then { a with is_active := false } else a) = id a
  rw [if_neg (fun hc => hmem.2 (beq_iff_eq.mp hc))]
  rfl

/-- Re-flagging h active undoes flagging it inactive, provided every machine
row named h was active to begin with. -/
theorem soft_then_reactivate (ms : List MachineRow) (h : String)
    (hact : ∀ m ∈ ms, m.hostname = h → m.is_active = true) :
    (ms.map (fun m => if m.hostname == h then { m with is_active := false } else m)).map
      (fun m => if m.hostname == h then { m with is_active := true } else m) = ms := by
  induction ms with
  | nil => rfl
  | cons m ms ih =>
    simp only [List.map_cons]
    congr 1
    · by_cases h1 : m.hostname = h
      · have hIs : m.is_active = true := hact m (List.mem_cons_self m ms) h1
        rcases m with ⟨mhn, mfs, mls, mact⟩
        simp only at h1 hIs
        simp [h1, hIs]
      · simp [beq_iff_eq, h1]
    · exact ih (fun x hx he => hact x (List.mem_cons_of_mem m hx) he)

/-- C9 counterexample. The claim quantifies over every machine. For a machine
that is inactive at soft-delete time the round trip is not neutral: with one
inactive machine h1 owning a 1000-token usage row, soft delete then
reactivate changes the lifetime totals (0 tokens and 0 machines before, 1000
tokens and 1 machine after), so reactivation does not restore the prior
contribution. -/
theorem c9_counterexample :
    get_totals ((reactivate_machine "h1" ((delete_machine "h1" false
        ⟨[⟨"h1", 0, 0, false⟩], [], [⟨"h1", 5, 400, 600, 0, 0, 0⟩], [], []⟩).1)).1)
      ≠ get_totals ⟨[⟨"h1", 0, 0, false⟩], [], [⟨"h1", 5, 400, 600, 0, 0, 0⟩], [], []⟩ := by
  decide

/-- C9 amended: for every machine that is active at the time of the soft
delete, soft deletion leaves the stored data rows unmodified, the three
aggregate queries behave exactly as if the machine and its rows had been
hard-deleted (its contribution is removed), and a subsequent reactivation
restores the store byte for byte — hence every aggregate — without any
re-submission. -/
theorem c9_soft_delete_reversible (db : DB) (h : String) (nowDay days : Int)
    (hact : ∀ m ∈ db.machines, m.hostname = h → m.is_active = true) :
    ((delete_machine h false db).1).daily_usage = db.daily_usage
    ∧ ((delete_machine h false db).1).daily_activity = db.daily_activity
    ∧ ((delete_machine h false db).1).model_usage = db.model_usage
    ∧ get_daily_stats nowDay days ((delete_machine h false db).1)
        = get_daily_stats nowDay days ((delete_machine h true db).1)
    ∧ get_model_stats ((delete_machine h false db).1)
        = get_model_stats ((delete_machine h true db).1)
    ∧ get_totals ((delete_machine h false db).1) = get_totals ((delete_machine h true db).1)
    ∧ (reactivate_machine h ((delete_machine h false db).1)).1 = db := by
  have hu : activeUsageRows ((delete_machine h false db).1)
      = activeUsageRows ((delete_machine h true db).1) :=
    @filter_active_soft_eq_hard DailyUsageRow (fun r => r.hostname) h db.machines db.daily_usage
  have ha : activeActivityRows ((delete_machine h false db).1)
      = activeActivityRows ((delete_machine h true db).1) :=
    @filter_active_soft_eq_hard DailyActivityRow (fun r => r.hostname) h db.machines
      db.daily_activity
  have hmo : activeModelRows ((delete_machine h false db).1)
      = activeModelRows ((delete_machine h true db).1) :=
    @filter_active_soft_eq_hard ModelUsageRow (fun r => r.hostname) h db.machines db.model_usage
  refine ⟨rfl, rfl, rfl, ?_, ?_, ?_, ?_⟩
  · unfold get_daily_stats
    rw [hu, ha]
  · unfold get_model_stats
    rw [hmo]
  · unfold get_totals
    rw [hu, ha]
    have hc : ((delete_machine h false db).1).machines.filter (fun m => m.is_active)
        = ((delete_machine h true db).1).machines.filter (fun m => m.is_active) :=
      filter_is_active_soft_eq_hard h db.machines
    rw [hc]
  · show DB.mk ((db.machines.map (fun m =>
        if m.hostname == h then { m with is_active := false } else m)).map
          (fun m => if m.hostname == h then { m with is_active := true } else m))
      db.daily_activity db.daily_usage db.model_usage db.raw_usage = db
    rw [soft_then_reactivate db.machines h hact]

/-- Witness for C9: one active machine h1 with one usage row. -/
theorem c9_soft_delete_reversible_witness :
    ((delete_machine "h1" false ⟨[⟨"h1", 0, 0, true⟩], [],
        [⟨"h1", 5, 400, 600, 0, 0, 0⟩], [], []⟩).1).daily_usage
      = (⟨[⟨"h1", 0, 0, true⟩], [], [⟨"h1", 5, 400, 600, 0, 0, 0⟩], [], []⟩ : DB).daily_usage
    ∧ ((delete_machine "h1" false ⟨[⟨"h1", 0, 0, true⟩], [],
        [⟨"h1", 5, 400, 600, 0, 0, 0⟩], [], []⟩).1).daily_activity
      = (⟨[⟨"h1", 0, 0, true⟩], [], [⟨"h1", 5, 400, 600, 0, 0, 0⟩], [], []⟩ : DB).daily_activity
    ∧ ((delete_machine "h1" false ⟨[⟨"h1", 0, 0, true⟩], [],
        [⟨"h1", 5, 400, 600, 0, 0, 0⟩], [], []⟩).1).model_usage
      = (⟨[⟨"h1", 0, 0, true⟩], [], [⟨"h1", 5, 400, 600, 0, 0, 0⟩], [], []⟩ : DB).model_usage
    ∧ get_daily_stats 10 30 ((delete_machine "h1" false ⟨[⟨"h1", 0, 0, true⟩], [],
        [⟨"h1", 5, 400, 600, 0, 0, 0⟩], [], []⟩).1)
      = get_daily_stats 10 30 ((delete_machine "h1" true ⟨[⟨"h1", 0, 0, true⟩], [],
        [⟨"h1", 5, 400, 600, 0, 0, 0⟩], [], []⟩).1)
    ∧ get_model_stats ((delete_machine "h1" false ⟨[⟨"h1", 0, 0, true⟩], [],
        [⟨"h1", 5, 400, 600, 0, 0, 0⟩], [], []⟩).1)
      = get_model_stats ((delete_machine "h1" true ⟨[⟨"h1", 0, 0, true⟩], [],
        [⟨"h1", 5, 400, 600, 0, 0, 0⟩], [], []⟩).1)
    ∧ get_totals ((delete_machine "h1" false ⟨[⟨"h1", 0, 0, true⟩], [],
        [⟨"h1", 5, 400, 600, 0, 0, 0⟩], [], []⟩).1)
      = get_totals ((delete_machine "h1" true ⟨[⟨"h1", 0, 0, true⟩], [],
        [⟨"h1", 5, 400, 600, 0, 0, 0⟩], [], []⟩).1)
    ∧ (reactivate_machine "h1" ((delete_machine "h1" false ⟨[⟨"h1", 0, 0, true⟩], [],
        [⟨"h1", 5, 400, 600, 0, 0, 0⟩], [], []⟩).1)).1
      = ⟨[⟨"h1", 0, 0, true⟩], [], [⟨"h1", 5, 400, 600, 0, 0, 0⟩], [], []⟩ :=
  c9_soft_delete_reversible ⟨[⟨"h1", 0, 0, true⟩], [], [⟨"h1", 5, 400, 600, 0, 0, 0⟩], [], []⟩
    "h1" 10 30 (by decide)
